import Mathlib

/-!
# Verification of the ReoCage reinforcement-cage weight calculator

A shallow embedding of `src/app.py` (a Streamlit application computing the
total steel mass of a concrete reinforcement cage) together with proofs of
the specification's claims about it.

Modelling conventions:
* Python floats are modelled as exact rationals (`ℚ`); Python ints as `ℤ`.
* Fixed-point string formatting `f"{x:.nf}"`, `df.round(n)` is modelled by
  `roundTo n`, rounding to `n` decimal places (nearest, ties up; the
  tie-breaking mode is immaterial to every value arising in the claims).
* `st.error` / `st.warning` side effects are modelled as an explicit
  `Signal` field of the calculation result.
* The dictionaries used for calculation rows are modelled as association
  lists from string keys to a `Value`, so that the exact keys written and
  read by the code are preserved (a Python `KeyError` becomes `none`).
* The HTTP layer (`requests.get`) is modelled as an oracle
  `String → ℕ → Option HttpResponse` taking the url and the timeout.
-/

/-- Rounding a rational to `n` decimal places: the model of Python fixed-point
formatting `f"{x:.nf}"` and of `DataFrame.round(n)`. -/
def roundTo (n : ℕ) (x : ℚ) : ℚ := ((round (x * 10 ^ n) : ℤ) : ℚ) / 10 ^ n

/-- `REBAR_WEIGHTS` from `app.py`: Australian rebar sizes and their nominal
mass per meter (kg/m), as an association list in the source's order. -/
def REBAR_WEIGHTS : List (String × ℚ) :=
  [("N10", 0.617),
   ("N12", 0.888),
   ("N16", 1.579),
   ("N20", 2.466),
   ("N24", 3.551),
   ("N28", 4.834),
   ("N32", 6.313),
   ("N36", 7.990),
   ("N40", 9.865),
   ("N50", 15.420)]

/-- The side channel of `calculate_bar_weight`: `st.error` for an
unrecognized size, `st.warning` for negative inputs, or no message. -/
inductive Signal : Type where
  | ok : Signal
  | sizeError : Signal
  | negativeWarning : Signal
deriving DecidableEq, Repr

/-- The tuple returned by `calculate_bar_weight`
`(total weight kg, unit weight kg/m, total length m)` plus the UI signal. -/
structure CalcResult : Type where
  totalWeight : ℚ
  unitWeight : ℚ
  totalLength : ℚ
  signal : Signal
deriving DecidableEq, Repr

/-- `calculate_bar_weight(bar_size, quantity, length_per_bar_m)` from
`app.py` lines 41-62: unknown size → `(0,0,0)` with an error; negative
quantity or length → zero weight and length but the correct unit weight,
with a warning; otherwise `total_length = quantity * length_per_bar_m` and
`total_weight = total_length * unit_weight`. -/
def calculate_bar_weight (bar_size : String) (quantity : ℤ)
    (length_per_bar_m : ℚ) : CalcResult :=
  match REBAR_WEIGHTS.lookup bar_size with
  | none => { totalWeight := 0, unitWeight := 0, totalLength := 0,
              signal := Signal.sizeError }
  | some w =>
    if quantity < 0 ∨ length_per_bar_m < 0 then
      { totalWeight := 0, unitWeight := w, totalLength := 0,
        signal := Signal.negativeWarning }
    else
      let unit_weight := w
      let total_length := (quantity : ℚ) * length_per_bar_m
      let total_weight := total_length * unit_weight
      { totalWeight := total_weight, unitWeight := unit_weight,
        totalLength := total_length, signal := Signal.ok }

/-- One raw input slot: the `{"size": ..., "qty": ..., "length": ...}`
dictionaries built by the input widgets. -/
structure BarInput : Type where
  size : String
  qty : ℤ
  length : ℚ
deriving DecidableEq, Repr

/-- A heterogeneous dictionary value: Python strings, ints and floats. -/
inductive Value : Type where
  | s : String → Value
  | i : ℤ → Value
  | q : ℚ → Value
deriving DecidableEq, Repr

/-- One entry of `calculation_data`: a Python dict, as an association list
preserving the exact keys the code writes. -/
abbrev Row : Type := List (String × Value)

/-- The dict appended to `calculation_data` for one qualifying input in the
button handler (lines 414-422, 431-439, 448-456 of `app.py`): the length is
stored under `lengthKey`, which is `"Length per Bar (m)"` for vertical and
horizontal bars but `"Length per Link (m) (Perimeter)"` for links. -/
def mkRow (label lengthKey : String) (i : ℕ) (b : BarInput)
    (r : CalcResult) : Row :=
  [("Component", Value.s (label ++ " (Type " ++ toString (i + 1) ++ ")")),
   ("Bar Size", Value.s b.size),
   ("Quantity", Value.i b.qty),
   (lengthKey, Value.q b.length),
   ("Total Length (m)", Value.q r.totalLength),
   ("Unit Weight (kg/m)", Value.q r.unitWeight),
   ("Total Weight (kg)", Value.q r.totalWeight)]

/-- One of the three per-category loops of the "Calculate Wall Cage Weight"
button handler: starting at slot index `i`, keep only inputs with
`qty > 0 and length > 0`, compute each via `calculate_bar_weight`, collect
the rows and accumulate the category's weight. -/
def categoryRows (label lengthKey : String) :
    ℕ → List BarInput → List Row × ℚ
  | _, [] => ([], 0)
  | i, b :: rest =>
    let tail := categoryRows label lengthKey (i + 1) rest
    if 0 < b.qty ∧ 0 < b.length then
      let r := calculate_bar_weight b.size b.qty b.length
      (mkRow label lengthKey i b r :: tail.1, r.totalWeight + tail.2)
    else tail

/-- The button handler's aggregation (lines 405-457 of `app.py`):
`calculation_data` in category order (vertical bars, horizontal bars,
links) and `total_cage_weight`. -/
def wallCageSummary (vertical horizontal links : List BarInput) :
    List Row × ℚ :=
  let pv := categoryRows "Vertical Bars" "Length per Bar (m)" 0 vertical
  let ph := categoryRows "Horizontal Bars" "Length per Bar (m)" 0 horizontal
  let pl := categoryRows "Links" "Length per Link (m) (Perimeter)" 0 links
  (pv.1 ++ ph.1 ++ pl.1, pv.2 + ph.2 + pl.2)

/-- The `"Total Weight (kg)"` entry of a calculation row (0 if absent or
non-numeric); used to state that the grand total is the sum of the rows'
total weights. -/
def rowWeight (r : Row) : ℚ :=
  match r.lookup "Total Weight (kg)" with
  | some (Value.q x) => x
  | _ => 0

/-- Specification-side characterisation of one category's rows: exactly the
inputs with positive quantity and positive length, in order, each paired
with its slot index and computed line item. Compared against
`categoryRows`, the translation of the source loop. -/
def includedLineRows (label lengthKey : String) (i : ℕ)
    (inputs : List BarInput) : List Row :=
  ((inputs.enumFrom i).filter
      fun p => decide (0 < p.2.qty) && decide (0 < p.2.length)).map
    fun p => mkRow label lengthKey p.1 p.2
      (calculate_bar_weight p.2.size p.2.qty p.2.length)

/-- A rendered table cell: plain text, an integer rendered with `str`, or a
number rendered in fixed-point with `dp` decimal places (the `val` field
holds the rounded value the formatted text denotes). -/
inductive Cell : Type where
  | txt : String → Cell
  | int : ℤ → Cell
  | fixed : (dp : ℕ) → (val : ℚ) → Cell
deriving DecidableEq, Repr

/-- The model of the f-string fixed-point format `f"{x:.dpf}"`. -/
def fmtFixed (dp : ℕ) (x : ℚ) : Cell := Cell.fixed dp (roundTo dp x)

/-- Python `str` applied to a dict value (only strings and ints flow
through `str` in the source). -/
def pyStr : Value → String
  | Value.s v => v
  | Value.i v => toString v
  | Value.q v => toString v

/-- Fixed-point formatting of a dict value; a string value would raise a
Python formatting error, modelled as `none`. -/
def fmtValue (dp : ℕ) : Value → Option Cell
  | Value.q x => some (fmtFixed dp x)
  | Value.i n => some (fmtFixed dp (n : ℚ))
  | Value.s _ => none

/-- One row of the PDF "Weight Calculation Summary" table (lines 297-306 of
`app.py`): the renderer reads the keys `"Component"`, `"Bar Size"`,
`"Quantity"`, `"Length per Bar (m)"`, `"Total Length (m)"`,
`"Unit Weight (kg/m)"`, `"Total Weight (kg)"`; a missing key is a Python
`KeyError`, modelled as `none`. -/
def renderSummaryRow (row : Row) : Option (List Cell) := do
  let c ← row.lookup "Component"
  let bs ← row.lookup "Bar Size"
  let qn ← row.lookup "Quantity"
  let l ← row.lookup "Length per Bar (m)"
  let tl ← row.lookup "Total Length (m)"
  let uw ← row.lookup "Unit Weight (kg/m)"
  let tw ← row.lookup "Total Weight (kg)"
  let lc ← fmtValue 2 l
  let tlc ← fmtValue 2 tl
  let uwc ← fmtValue 3 uw
  let twc ← fmtValue 2 tw
  return [Cell.txt (pyStr c), Cell.txt (pyStr bs), Cell.txt (pyStr qn),
          lc, tlc, uwc, twc]

/-- The summary-table loop over `calculation_data`; the first failing row
aborts the whole render, as a raised `KeyError` would. -/
def renderSummaryRows : List Row → Option (List (List Cell))
  | [] => some []
  | r :: rest =>
    match renderSummaryRow r, renderSummaryRows rest with
    | some c, some cs => some (c :: cs)
    | _, _ => none

/-- The "Weight Calculation Summary" section: either the table plus the
total-weight line, or the notice paragraph emitted when
`calculation_data` is empty. -/
inductive SummarySection : Type where
  | table : List (List Cell) → Cell → SummarySection
  | notice : String → SummarySection
deriving DecidableEq, Repr

/-- Lines 283-327 of `app.py`: a non-empty `calculation_data` yields the
table and the `f"{total_weight:.2f}"` total line; an empty one yields the
"no data" notice. -/
def renderSummarySection (calculation_data : List Row) (total_weight : ℚ) :
    Option SummarySection :=
  if calculation_data.isEmpty then
    some (SummarySection.notice "No bar details were entered for calculation.")
  else
    match renderSummaryRows calculation_data with
    | some rows => some (SummarySection.table rows (fmtFixed 2 total_weight))
    | none => none

/-- `component_name_map` from `app.py` lines 237-241. -/
def component_name_map : List (String × String) :=
  [("vertical_bars", "Vertical Bars"),
   ("horizontal_bars", "Horizontal Bars"),
   ("links", "Links/Ties")]

/-- The default label `category.replace('_', ' ').title()` used when a
category key is not in `component_name_map` (never reached by the app's
three fixed categories); `.title()` modelled word-by-word on spaces. -/
def pyTitle (category : String) : String :=
  String.intercalate " "
    (((category.replace "_" " ").splitOn " ").map
      fun w => w.toLower.capitalize)

/-- The label of a category in the "Input Details" table. -/
def componentLabel (category : String) : String :=
  (component_name_map.lookup category).getD (pyTitle category)

/-- One row of the PDF "Input Details" table (lines 247-256 of `app.py`):
component label with slot number, bar size, `str(qty)`, and the length
formatted to two decimal places. -/
def mkInputRow (category : String) (i : ℕ) (b : BarInput) : List Cell :=
  [Cell.txt (componentLabel category ++ " (Type " ++ toString (i + 1) ++ ")"),
   Cell.txt b.size,
   Cell.txt (toString b.qty),
   fmtFixed 2 b.length]

/-- The inner loop of the Input Details section (lines 243-256 of
`app.py`): a slot is rendered when `item["qty"] > 0 or item["length"] > 0`. -/
def inputRowsFor (category : String) : ℕ → List BarInput → List (List Cell)
  | _, [] => []
  | i, b :: rest =>
    if 0 < b.qty ∨ 0 < b.length then
      mkInputRow category i b :: inputRowsFor category (i + 1) rest
    else
      inputRowsFor category (i + 1) rest

/-- The outer loop over `input_details.items()`. -/
def inputDetailsRows : List (String × List BarInput) → List (List Cell)
  | [] => []
  | (cat, items) :: rest => inputRowsFor cat 0 items ++ inputDetailsRows rest

/-- The "Input Details" section: the table when it has at least one data
row, otherwise the notice paragraph (lines 258-276 of `app.py`). -/
inductive InputSection : Type where
  | table : List (List Cell) → InputSection
  | notice : String → InputSection
deriving DecidableEq, Repr

/-- An HTTP response, as far as `download_logo` inspects it. -/
structure HttpResponse : Type where
  status_code : ℤ
deriving DecidableEq, Repr

/-- `LOGO_URL` from `app.py`. -/
def LOGO_URL : String :=
  "https://placehold.co/100x40/FF0000/FFFFFF?text=COMPANY+LOGO"

/-- `FALLBACK_LOGO_URL` from `app.py`. -/
def FALLBACK_LOGO_URL : String :=
  "https://placehold.co/100x40/0000FF/FFFFFF?text=FALLBACK+LOGO"

/-- `download_logo()` from `app.py` lines 66-80, with `requests.get`
abstracted as an oracle taking the url and the timeout (seconds). Returns
the saved file name (if any attempt returned status 200) together with the
trace of `(url, timeout)` attempts actually issued. An oracle answer of
`none` models a raised exception, which the code swallows and moves past. -/
def download_logo (http : String → ℕ → Option HttpResponse) :
    Option String × List (String × ℕ) :=
  tryUrls [LOGO_URL, FALLBACK_LOGO_URL]
where
  tryUrls : List String → Option String × List (String × ℕ)
    | [] => (none, [])
    | url :: rest =>
      match http url 10 with
      | some r =>
        if r.status_code = 200 then (some "company_logo.png", [(url, 10)])
        else
          let t := tryUrls rest
          (t.1, (url, 10) :: t.2)
      | none =>
        let t := tryUrls rest
        (t.1, (url, 10) :: t.2)

/-- Whether one fetch attempt succeeds: the oracle answers (no exception)
with status 200. -/
def fetchOk (http : String → ℕ → Option HttpResponse) (url : String) : Bool :=
  match http url 10 with
  | some r => r.status_code == 200
  | none => false

/-- The document produced by `generate_pdf_report`, restricted to the two
data-bearing sections the claims are about; the title, project-info and
introduction paragraphs are constant text and are omitted. -/
structure Report : Type where
  inputSection : InputSection
  summarySection : SummarySection
deriving DecidableEq, Repr

/-- `generate_pdf_report(calculation_data, total_weight, ...)` from
`app.py` lines 109-332: downloads the logo (result unused by the document
body), builds the Input Details section, then the Weight Calculation
Summary section; `none` models an exception escaping the call. -/
def generate_pdf_report (http : String → ℕ → Option HttpResponse)
    (calculation_data : List Row) (total_weight : ℚ)
    (input_details : List (String × List BarInput)) : Option Report :=
  let _ := download_logo http
  let inRows := inputDetailsRows input_details
  let inputSec :=
    if inRows.isEmpty then
      InputSection.notice "No input details were provided."
    else InputSection.table inRows
  match renderSummarySection calculation_data total_weight with
  | some s => some { inputSection := inputSec, summarySection := s }
  | none => none

/-- The on-screen table `st.dataframe(df.round(2), ...)` (line 462 of
`app.py`): every float value of every calculation row rounded to two
decimal places; strings and integer quantities are unaffected. -/
def displayTable (calculation_data : List Row) : List Row :=
  calculation_data.map fun r =>
    r.map fun kv =>
      match kv.2 with
      | Value.q x => (kv.1, Value.q (roundTo 2 x))
      | v => (kv.1, v)

/-- Specification-side characterisation of the Input Details rows: for each
category in order, exactly the slots with `qty > 0` or `length > 0`, in
slot order. Compared against `inputDetailsRows`, the translation of the
source loops. -/
def includedInputRows (details : List (String × List BarInput)) :
    List (List Cell) :=
  details.flatMap fun ci =>
    ((ci.2.enumFrom 0).filter
        fun p => decide (0 < p.2.qty) || decide (0 < p.2.length)).map
      fun p => mkInputRow ci.1 p.1 p.2

-- helper lemmas

theorem includedLineRows_cons (label lengthKey : String) (i : ℕ)
    (b : BarInput) (rest : List BarInput) :
    includedLineRows label lengthKey i (b :: rest)
      = (if 0 < b.qty ∧ 0 < b.length then
          [mkRow label lengthKey i b
            (calculate_bar_weight b.size b.qty b.length)]
        else [])
        ++ includedLineRows label lengthKey (i + 1) rest := by
  unfold includedLineRows
  by_cases h1 : 0 < b.qty <;> by_cases h2 : 0 < b.length <;>
    simp [List.enumFrom, List.filter_cons, h1, h2]

theorem categoryRows_fst (label lengthKey : String) (inputs : List BarInput) :
    ∀ i, (categoryRows label lengthKey i inputs).1
      = includedLineRows label lengthKey i inputs := by
  induction inputs with
  | nil => intro i; rfl
  | cons b rest ih =>
    intro i
    rw [includedLineRows_cons]
    by_cases h : 0 < b.qty ∧ 0 < b.length
    · simp [categoryRows, if_pos h, ih (i + 1)]
    · simp [categoryRows, if_neg h, h, ih (i + 1)]

theorem rowWeight_mkRow_bar (label : String) (i : ℕ) (b : BarInput)
    (r : CalcResult) :
    rowWeight (mkRow label "Length per Bar (m)" i b r) = r.totalWeight := rfl

theorem rowWeight_mkRow_link (label : String) (i : ℕ) (b : BarInput)
    (r : CalcResult) :
    rowWeight (mkRow label "Length per Link (m) (Perimeter)" i b r)
      = r.totalWeight := rfl

theorem categoryRows_snd (label lengthKey : String)
    (hkey : ∀ i b r, rowWeight (mkRow label lengthKey i b r) = r.totalWeight)
    (inputs : List BarInput) :
    ∀ i, (categoryRows label lengthKey i inputs).2
      = ((categoryRows label lengthKey i inputs).1.map rowWeight).sum := by
  induction inputs with
  | nil => intro i; rfl
  | cons b rest ih =>
    intro i
    by_cases h : 0 < b.qty ∧ 0 < b.length
    · simp [categoryRows, if_pos h, hkey, ih (i + 1)]
    · simp [categoryRows, if_neg h, ih (i + 1)]

theorem categoryRows_cons_fst (label lengthKey : String) (i : ℕ)
    (b : BarInput) (rest : List BarInput) :
    (categoryRows label lengthKey i (b :: rest)).1
      = (if 0 < b.qty ∧ 0 < b.length then
          [mkRow label lengthKey i b
            (calculate_bar_weight b.size b.qty b.length)]
        else [])
        ++ (categoryRows label lengthKey (i + 1) rest).1 := by
  by_cases h : 0 < b.qty ∧ 0 < b.length <;> simp [categoryRows, h]

theorem categoryRows_append_fst (label lengthKey : String)
    (xs ys : List BarInput) :
    ∀ i, (categoryRows label lengthKey i (xs ++ ys)).1
      = (categoryRows label lengthKey i xs).1
        ++ (categoryRows label lengthKey (i + xs.length) ys).1 := by
  induction xs with
  | nil => intro i; rfl
  | cons b xs ih =>
    intro i
    rw [List.cons_append, categoryRows_cons_fst, categoryRows_cons_fst,
      ih (i + 1)]
    simp only [List.append_assoc, List.length_cons]
    rw [Nat.add_right_comm i 1 xs.length, Nat.add_assoc i xs.length 1]

/-- **C1.** For every bar size `s` in the unit-weight table and every
non-negative quantity `q` and length `l`, `calculate_bar_weight` returns
total length `q * l`, the table's unit weight, and total weight
`q * l * unitWeight`, exactly (no rounding at this layer), with no error
signal. -/
theorem claim_C1 (s : String) (w : ℚ) (hs : REBAR_WEIGHTS.lookup s = some w)
    (q : ℤ) (l : ℚ) (hq : 0 ≤ q) (hl : 0 ≤ l) :
    calculate_bar_weight s q l =
      { totalWeight := (q : ℚ) * l * w, unitWeight := w,
        totalLength := (q : ℚ) * l, signal := Signal.ok } := by
  simp only [calculate_bar_weight, hs]
  rw [if_neg (by push_neg; exact ⟨hq, hl⟩)]

/-- Witness for C1 at the spec's example: N12 (0.888 kg/m), 10 bars of
3 m give 30 m and 26.64 kg. -/
theorem claim_C1_witness :
    REBAR_WEIGHTS.lookup "N12" = some 0.888 ∧ (0 : ℤ) ≤ 10 ∧ (0 : ℚ) ≤ 3 ∧
    calculate_bar_weight "N12" 10 3 =
      { totalWeight := (10 : ℚ) * 3 * 0.888, unitWeight := 0.888,
        totalLength := (10 : ℚ) * 3, signal := Signal.ok } :=
  ⟨rfl, by norm_num, by norm_num,
   claim_C1 "N12" 0.888 rfl 10 3 (by norm_num) (by norm_num)⟩

/-- **C5.** For every bar size not in the unit-weight table,
`calculate_bar_weight` returns all-zero figures with the
unrecognized-size error signal, and the batch loop keeps processing the
remaining items: the rows contributed by the inputs after the offending
one are unchanged. -/
theorem claim_C5 (s : String) (hs : REBAR_WEIGHTS.lookup s = none)
    (q : ℤ) (l : ℚ) :
    calculate_bar_weight s q l =
      { totalWeight := 0, unitWeight := 0, totalLength := 0,
        signal := Signal.sizeError }
    ∧ ∀ (label lengthKey : String) (i : ℕ) (xs ys : List BarInput),
        (categoryRows label lengthKey i (xs ++ ⟨s, q, l⟩ :: ys)).1
          = (categoryRows label lengthKey i xs).1
            ++ (if 0 < q ∧ 0 < l then
                 [mkRow label lengthKey (i + xs.length) ⟨s, q, l⟩
                   (calculate_bar_weight s q l)]
               else [])
            ++ (categoryRows label lengthKey (i + xs.length + 1) ys).1 := by
  constructor
  · simp only [calculate_bar_weight, hs]
  · intro label lengthKey i xs ys
    rw [categoryRows_append_fst, categoryRows_cons_fst, List.append_assoc]

/-- Witness for C5 at the spec's example size `"INVALID"`. -/
theorem claim_C5_witness :
    REBAR_WEIGHTS.lookup "INVALID" = none ∧
    calculate_bar_weight "INVALID" 5 2 =
      { totalWeight := 0, unitWeight := 0, totalLength := 0,
        signal := Signal.sizeError } :=
  ⟨rfl, (claim_C5 "INVALID" rfl 5 2).1⟩

/-- **C6.** For every known size and a negative quantity or length,
`calculate_bar_weight` returns zero total weight and length, preserves the
table's unit weight, and signals the negative-input warning. -/
theorem claim_C6 (s : String) (w : ℚ) (hs : REBAR_WEIGHTS.lookup s = some w)
    (q : ℤ) (l : ℚ) (hneg : q < 0 ∨ l < 0) :
    calculate_bar_weight s q l =
      { totalWeight := 0, unitWeight := w, totalLength := 0,
        signal := Signal.negativeWarning } := by
  simp only [calculate_bar_weight, hs]
  rw [if_pos hneg]

/-- Witness for C6 at N12 with quantity -1. -/
theorem claim_C6_witness :
    REBAR_WEIGHTS.lookup "N12" = some 0.888 ∧ ((-1 : ℤ) < 0 ∨ (2 : ℚ) < 0) ∧
    calculate_bar_weight "N12" (-1) 2 =
      { totalWeight := 0, unitWeight := 0.888, totalLength := 0,
        signal := Signal.negativeWarning } :=
  ⟨rfl, Or.inl (by norm_num),
   claim_C6 "N12" 0.888 rfl (-1) 2 (Or.inl (by norm_num))⟩

/-- **C10.** The unknown-size check takes precedence over the
negative-input check: an unknown size with a negative quantity or length
yields the all-zero result (unit weight 0, not a table value) with the
unrecognized-size error, not the negative-input warning. -/
theorem claim_C10 (s : String) (hs : REBAR_WEIGHTS.lookup s = none)
    (q : ℤ) (l : ℚ) (hneg : q < 0 ∨ l < 0) :
    calculate_bar_weight s q l =
      { totalWeight := 0, unitWeight := 0, totalLength := 0,
        signal := Signal.sizeError }
    ∧ (calculate_bar_weight s q l).signal ≠ Signal.negativeWarning
    ∧ (calculate_bar_weight s q l).unitWeight = 0 := by
  refine ⟨?_, ?_, ?_⟩ <;> simp only [calculate_bar_weight, hs] <;> simp

/-- Witness for C10 at size `"INVALID"` with quantity -1. -/
theorem claim_C10_witness :
    calculate_bar_weight "INVALID" (-1) 2 =
      { totalWeight := 0, unitWeight := 0, totalLength := 0,
        signal := Signal.sizeError }
    ∧ (calculate_bar_weight "INVALID" (-1) 2).signal
        ≠ Signal.negativeWarning
    ∧ (calculate_bar_weight "INVALID" (-1) 2).unitWeight = 0 :=
  claim_C10 "INVALID" rfl (-1) 2 (Or.inl (by norm_num))

theorem includedLineRows_eq_nil (label lengthKey : String)
    (inputs : List BarInput)
    (hall : ∀ b ∈ inputs, ¬(0 < b.qty ∧ 0 < b.length)) :
    ∀ i, includedLineRows label lengthKey i inputs = [] := by
  induction inputs with
  | nil => intro i; rfl
  | cons b rest ih =>
    intro i
    rw [includedLineRows_cons]
    have hb := hall b (by simp)
    simp only [if_neg hb, List.nil_append]
    exact ih (fun b' hb' => hall b' (by simp [hb'])) (i + 1)

/-- **C2.** The computed summary consists of exactly the qualifying inputs
(quantity and length both positive), in category order (vertical,
horizontal, links); the grand total is the sum of the rows' total weights;
a batch with no qualifying items yields the empty summary with zero total;
and the spec's example batch yields exactly two line items totalling
26.64 + 78.95 = 105.59. -/
theorem claim_C2 (v h l : List BarInput) :
    (wallCageSummary v h l).1
      = includedLineRows "Vertical Bars" "Length per Bar (m)" 0 v
        ++ includedLineRows "Horizontal Bars" "Length per Bar (m)" 0 h
        ++ includedLineRows "Links" "Length per Link (m) (Perimeter)" 0 l
    ∧ (wallCageSummary v h l).2
        = ((wallCageSummary v h l).1.map rowWeight).sum
    ∧ ((∀ b ∈ v ++ h ++ l, ¬(0 < b.qty ∧ 0 < b.length)) →
        wallCageSummary v h l = ([], 0))
    ∧ (wallCageSummary
        [⟨"N12", 10, 3⟩, ⟨"N16", 50, 1⟩, ⟨"N20", 0, 6⟩] [] []).1.length = 2
    ∧ (wallCageSummary
        [⟨"N12", 10, 3⟩, ⟨"N16", 50, 1⟩, ⟨"N20", 0, 6⟩] [] []).2
        = 26.64 + 78.95
    ∧ (26.64 + 78.95 : ℚ) = 105.59 := by
  have hfst : (wallCageSummary v h l).1
      = includedLineRows "Vertical Bars" "Length per Bar (m)" 0 v
        ++ includedLineRows "Horizontal Bars" "Length per Bar (m)" 0 h
        ++ includedLineRows "Links" "Length per Link (m) (Perimeter)" 0 l := by
    simp [wallCageSummary, categoryRows_fst]
  have hsnd : (wallCageSummary v h l).2
      = ((wallCageSummary v h l).1.map rowWeight).sum := by
    simp only [wallCageSummary, List.map_append, List.sum_append]
    rw [categoryRows_snd "Vertical Bars" "Length per Bar (m)"
          (fun i b r => rowWeight_mkRow_bar "Vertical Bars" i b r) v 0,
        categoryRows_snd "Horizontal Bars" "Length per Bar (m)"
          (fun i b r => rowWeight_mkRow_bar "Horizontal Bars" i b r) h 0,
        categoryRows_snd "Links" "Length per Link (m) (Perimeter)"
          (fun i b r => rowWeight_mkRow_link "Links" i b r) l 0]
  refine ⟨hfst, hsnd, ?_, ?_, ?_, by norm_num⟩
  · intro hall
    have hv : ∀ b ∈ v, ¬(0 < b.qty ∧ 0 < b.length) :=
      fun b hb => hall b (by simp [hb])
    have hh : ∀ b ∈ h, ¬(0 < b.qty ∧ 0 < b.length) :=
      fun b hb => hall b (by simp [hb])
    have hl : ∀ b ∈ l, ¬(0 < b.qty ∧ 0 < b.length) :=
      fun b hb => hall b (by simp [hb])
    have h1 : (wallCageSummary v h l).1 = [] := by
      rw [hfst, includedLineRows_eq_nil _ _ _ hv,
        includedLineRows_eq_nil _ _ _ hh, includedLineRows_eq_nil _ _ _ hl]
      rfl
    have h2 : (wallCageSummary v h l).2 = 0 := by
      rw [hsnd, h1]; rfl
    exact Prod.ext h1 h2
  · norm_num [wallCageSummary, categoryRows]
  · have l12 : REBAR_WEIGHTS.lookup "N12" = some 0.888 := rfl
    have l16 : REBAR_WEIGHTS.lookup "N16" = some 1.579 := rfl
    norm_num [wallCageSummary, categoryRows, calculate_bar_weight, l12, l16]

/-- Witness for C2's no-qualifying-items clause: a batch whose only entry
has quantity 0 yields the empty summary with zero total. -/
theorem claim_C2_witness :
    wallCageSummary [⟨"N20", 0, 6⟩] [] [] = ([], 0) :=
  (claim_C2 [⟨"N20", 0, 6⟩] [] []).2.2.1 (by
    intro b hb
    simp only [List.append_nil, List.mem_singleton] at hb
    subst hb
    rintro ⟨h1, _⟩
    exact absurd h1 (by norm_num))

theorem inputRowsFor_eq (cat : String) (items : List BarInput) :
    ∀ i, inputRowsFor cat i items
      = ((items.enumFrom i).filter
          fun p => decide (0 < p.2.qty) || decide (0 < p.2.length)).map
        fun p => mkInputRow cat p.1 p.2 := by
  induction items with
  | nil => intro i; rfl
  | cons b rest ih =>
    intro i
    by_cases h1 : 0 < b.qty <;> by_cases h2 : 0 < b.length <;>
      simp [inputRowsFor, List.enumFrom, List.filter_cons, h1, h2, ih (i + 1)]

/-- **C3 (code bug).** A summary containing a links line item makes
`generate_pdf_report` fail: the handler stores the link length under
`"Length per Link (m) (Perimeter)"` but the renderer reads
`"Length per Bar (m)"`, so the row lookup fails (a Python `KeyError`) and
no document is produced, evaluated here at the batch with the single links
input N12, quantity 10, length 3. -/
theorem claim_C3_eval :
    (List.lookup "Length per Bar (m)"
        (mkRow "Links" "Length per Link (m) (Perimeter)" 0 ⟨"N12", 10, 3⟩
          (calculate_bar_weight "N12" 10 3)) = none)
    ∧ renderSummaryRow
        (mkRow "Links" "Length per Link (m) (Perimeter)" 0 ⟨"N12", 10, 3⟩
          (calculate_bar_weight "N12" 10 3)) = none
    ∧ generate_pdf_report (fun _ _ => none)
        (wallCageSummary [] [] [⟨"N12", 10, 3⟩]).1
        (wallCageSummary [] [] [⟨"N12", 10, 3⟩]).2
        [("links", [⟨"N12", 10, 3⟩])] = none := by
  refine ⟨rfl, rfl, ?_⟩
  have hrows : (wallCageSummary [] [] [⟨"N12", 10, 3⟩]).1
      = [mkRow "Links" "Length per Link (m) (Perimeter)" 0 ⟨"N12", 10, 3⟩
          (calculate_bar_weight "N12" 10 3)] := by
    norm_num [wallCageSummary, categoryRows]
  rw [generate_pdf_report, hrows]
  rfl

/-- Counterexample to **C4** as stated: the raw input slot
`{size N12, qty 5, length 0}` fails the claimed inclusion condition
(quantity and length both positive) yet the code's Input Details table
does list it, because the source tests `qty > 0 or length > 0`. -/
theorem claim_C4_counterexample :
    ¬((inputDetailsRows [("vertical_bars", [⟨"N12", 5, 0⟩])] ≠ [])
      ↔ (0 < (5 : ℤ) ∧ (0 : ℚ) < 0)) := by
  intro hiff
  have h1 : inputDetailsRows [("vertical_bars", [⟨"N12", 5, 0⟩])]
      = [mkInputRow "vertical_bars" 0 ⟨"N12", 5, 0⟩] := by
    norm_num [inputDetailsRows, inputRowsFor]
  have h2 := hiff.mp (by rw [h1]; simp)
  exact absurd h2.2 (by norm_num)

/-- **C4 (amended).** A raw input row appears in the Input Details table
iff its quantity is positive OR its length is positive (the code's test is
`item["qty"] > 0 or item["length"] > 0`); per category in order, the rows
are exactly the slots passing that test, and every successfully generated
report carries exactly those rows (or the no-input notice when there are
none). -/
theorem claim_C4 (details : List (String × List BarInput)) :
    inputDetailsRows details = includedInputRows details
    ∧ ∀ (http : String → ℕ → Option HttpResponse) (cd : List Row) (tw : ℚ)
        (r : Report),
        generate_pdf_report http cd tw details = some r →
        r.inputSection
          = (if (inputDetailsRows details).isEmpty then
              InputSection.notice "No input details were provided."
            else InputSection.table (inputDetailsRows details)) := by
  constructor
  · induction details with
    | nil => rfl
    | cons ci rest ih =>
      obtain ⟨cat, items⟩ := ci
      simp only [inputDetailsRows, includedInputRows, List.flatMap_cons]
      rw [inputRowsFor_eq cat items 0]
      simp only [includedInputRows] at ih
      rw [ih]
  · intro http cd tw r hr
    rw [generate_pdf_report] at hr
    rcases hmatch : renderSummarySection cd tw with _ | s
    · rw [hmatch] at hr; exact absurd hr (by simp)
    · rw [hmatch] at hr
      simp only [Option.some.injEq] at hr
      rw [← hr]

/-- Witness for C4's report clause at the counterexample input: the
generated report's Input Details section is the one-row table for the slot
with quantity 5 and length 0. -/
theorem claim_C4_witness :
    (Report.mk
        (InputSection.table [mkInputRow "vertical_bars" 0 ⟨"N12", 5, 0⟩])
        (SummarySection.notice
          "No bar details were entered for calculation.")).inputSection
      = (if (inputDetailsRows
              [("vertical_bars", [⟨"N12", 5, 0⟩])]).isEmpty then
          InputSection.notice "No input details were provided."
        else InputSection.table
          (inputDetailsRows [("vertical_bars", [⟨"N12", 5, 0⟩])])) :=
  (claim_C4 [("vertical_bars", [⟨"N12", 5, 0⟩])]).2
    (fun _ _ => none) [] 0 _ rfl

/-- Counterexample to **C7** as stated: the on-screen display table does
not format unit weights to 3 decimal places — `df.round(2)` rounds the
N12 unit weight 0.888 to 0.89, which differs from its 3-decimal-place
rendering 0.888. -/
theorem claim_C7_counterexample :
    ((displayTable (wallCageSummary [⟨"N12", 10, 3⟩] [] []).1).head?.bind
        (fun row => row.lookup "Unit Weight (kg/m)"))
      = some (Value.q (roundTo 2 0.888))
    ∧ roundTo 2 0.888 = 0.89
    ∧ roundTo 3 0.888 = 0.888
    ∧ (0.89 : ℚ) ≠ 0.888 := by
  refine ⟨?_, ?_, ?_, by norm_num⟩
  · have l12 : REBAR_WEIGHTS.lookup "N12" = some 0.888 := rfl
    have hrows : (wallCageSummary [⟨"N12", 10, 3⟩] [] []).1
        = [mkRow "Vertical Bars" "Length per Bar (m)" 0 ⟨"N12", 10, 3⟩
            (calculate_bar_weight "N12" 10 3)] := by
      norm_num [wallCageSummary, categoryRows]
    have huw : (calculate_bar_weight "N12" 10 3).unitWeight = 0.888 := by
      norm_num [calculate_bar_weight, l12]
    rw [hrows]
    simp only [displayTable, mkRow, List.map_cons, List.map_nil,
      List.head?_cons, Option.bind_some]
    rw [huw]
    rfl
  · norm_num [roundTo, round_eq]
  · norm_num [roundTo, round_eq]

/-- **C7 (amended).** In the PDF tables, quantities are rendered as
integer strings, lengths and weights to 2 decimal places and unit weights
to 3 decimal places; `fmtFixed dp` always yields a multiple of `10^-dp`
within half an ulp of the source value; the on-screen display table
instead rounds every float column — the unit weight included — to 2
decimal places and leaves the integer quantity unchanged. -/
theorem claim_C7 (label : String) (i : ℕ) (b : BarInput) (r : CalcResult) :
    renderSummaryRow (mkRow label "Length per Bar (m)" i b r)
      = some [Cell.txt (label ++ " (Type " ++ toString (i + 1) ++ ")"),
              Cell.txt b.size, Cell.txt (toString b.qty),
              fmtFixed 2 b.length, fmtFixed 2 r.totalLength,
              fmtFixed 3 r.unitWeight, fmtFixed 2 r.totalWeight]
    ∧ (∀ (dp : ℕ) (x : ℚ), ∃ k : ℤ,
        fmtFixed dp x = Cell.fixed dp ((k : ℚ) / 10 ^ dp)
        ∧ |(k : ℚ) / 10 ^ dp - x| ≤ 1 / (2 * 10 ^ dp))
    ∧ mkInputRow "vertical_bars" i b
        = [Cell.txt ("Vertical Bars (Type " ++ toString (i + 1) ++ ")"),
           Cell.txt b.size, Cell.txt (toString b.qty), fmtFixed 2 b.length]
    ∧ (displayTable [mkRow label "Length per Bar (m)" i b r]).head?.bind
        (fun row => row.lookup "Unit Weight (kg/m)")
        = some (Value.q (roundTo 2 r.unitWeight))
    ∧ (displayTable [mkRow label "Length per Bar (m)" i b r]).head?.bind
        (fun row => row.lookup "Quantity") = some (Value.i b.qty) := by
  refine ⟨rfl, ?_, rfl, rfl, rfl⟩
  intro dp x
  refine ⟨round (x * 10 ^ dp), rfl, ?_⟩
  have h10 : (0 : ℚ) < 10 ^ dp := by positivity
  have key : |((round (x * 10 ^ dp) : ℤ) : ℚ) - x * 10 ^ dp| ≤ 1 / 2 := by
    simpa [abs_sub_comm] using abs_sub_round (x * 10 ^ dp)
  have heq : ((round (x * 10 ^ dp) : ℤ) : ℚ) / 10 ^ dp - x
      = (((round (x * 10 ^ dp) : ℤ) : ℚ) - x * 10 ^ dp) / 10 ^ dp := by
    field_simp
    ring
  rw [heq, abs_div, abs_of_pos h10, div_le_div_iff h10 (by positivity)]
  nlinarith [key, h10]

/-- **C8.** On a summary with zero included line items,
`generate_pdf_report` still produces a document, whose Weight Calculation
Summary section is the explicit no-data notice — not a table, so it has no
summary table rows. -/
theorem claim_C8 (http : String → ℕ → Option HttpResponse) (tw : ℚ)
    (details : List (String × List BarInput)) :
    generate_pdf_report http [] tw details
      = some { inputSection :=
                 if (inputDetailsRows details).isEmpty then
                   InputSection.notice "No input details were provided."
                 else InputSection.table (inputDetailsRows details),
               summarySection := SummarySection.notice
                 "No bar details were entered for calculation." }
    ∧ ∀ (rows : List (List Cell)) (t : Cell),
        (SummarySection.notice "No bar details were entered for calculation.")
          ≠ SummarySection.table rows t := by
  exact ⟨rfl, fun rows t h => SummarySection.noConfusion h⟩

/-- **C9.** The logo fetch tries the primary url and then the fallback
url, each with timeout 10 and with no further attempts; it succeeds iff
either attempt returns status 200, any failure being swallowed; and the
generated document does not depend on the fetch oracle at all, so a logo
failure is never surfaced as a failure of report generation. -/
theorem claim_C9 (http : String → ℕ → Option HttpResponse) :
    (download_logo http).2
      = (if fetchOk http LOGO_URL then [(LOGO_URL, 10)]
         else [(LOGO_URL, 10), (FALLBACK_LOGO_URL, 10)])
    ∧ ((download_logo http).1.isSome
        = (fetchOk http LOGO_URL || fetchOk http FALLBACK_LOGO_URL))
    ∧ ∀ (http' : String → ℕ → Option HttpResponse) (cd : List Row) (tw : ℚ)
        (d : List (String × List BarInput)),
        generate_pdf_report http cd tw d = generate_pdf_report http' cd tw d := by
  refine ⟨?_, ?_, fun _ _ _ _ => rfl⟩ <;>
  · rcases hp : http LOGO_URL 10 with _ | r
    · rcases hf : http FALLBACK_LOGO_URL 10 with _ | r2
      · simp [download_logo, download_logo.tryUrls, fetchOk, hp, hf]
      · by_cases h2 : r2.status_code = 200 <;>
          simp [download_logo, download_logo.tryUrls, fetchOk, hp, hf, h2]
    · by_cases h1 : r.status_code = 200 <;>
        rcases hf : http FALLBACK_LOGO_URL 10 with _ | r2
      · simp [download_logo, download_logo.tryUrls, fetchOk, hp, hf, h1]
      · by_cases h2 : r2.status_code = 200 <;>
          simp [download_logo, download_logo.tryUrls, fetchOk, hp, hf, h1, h2]
      · simp [download_logo, download_logo.tryUrls, fetchOk, hp, hf, h1]
      · by_cases h2 : r2.status_code = 200 <;>
          simp [download_logo, download_logo.tryUrls, fetchOk, hp, hf, h1, h2]
